import Mathlib

/-!
# DEP client (`internal/dep`): session lifecycle, dispatcher and device paging

A shallow embedding of the Go package `dep` (client.go, device.go, account.go,
profile.go, activation_lock.go).

* A Go `error` is an `Option Error` (`none` is `nil`).
* A Go pointer result `*T` is an `Option T` (`none` is `nil`).
* The mutable receiver `*Client`, the readings of `time.Now` taken so far and the
  calls made so far are threaded through every operation as a `World`.
* Everything the package calls but does not define (the HTTP transport, the wall
  clock, `net/url`, `net/http`, the oauth1 signer, `encoding/json`) is a field of
  `Env`, so every theorem holds for every behaviour of those collaborators.
-/

namespace dep

/-! ## Errors (`github.com/pkg/errors`) -/

/-- An error value: `New` is an error made by `errors.New`, `errors.Errorf` or a
library; `Wrap cause msg` is `errors.Wrap(cause, msg)`. -/
inductive Error where
  | New (msg : String)
  | Wrap (cause : Error) (msg : String)
  deriving DecidableEq, Repr

/-- The text of an error, as Go's `err.Error()`: a wrapped error prints its own
message, a colon and the message of its cause. -/
def Error.Message : Error → String
  | .New msg => msg
  | .Wrap cause msg => msg ++ ": " ++ cause.Message

/-- The function `errors.Wrap`: it returns `nil` when the error is `nil`. -/
def errors.Wrap : Option Error → String → Option Error
  | none, _ => none
  | some err, message => some (.Wrap err message)

/-! ## Constants -/

def contentType : String := "application/json;charset=UTF8"
def XServerProtocolHeader : String := "X-Server-Protocol-Version"
def ProtocolVersionNumber : String := "3"
def GetDevicesPath : String := "devices"
def GetAllDevicesPath : String := "server/devices"
def SyncDevicesPath : String := "devices/sync"
def GetProfilePath : String := "profile"
def CreateProfilePath : String := "profile"
def AssignProfilePath : String := "profile/devices"
def RemoveProfilePath : String := "profile/devices"
def ActivationLockPath : String := "device/activationlock"
def MethodGet : String := "GET"
def MethodPost : String := "POST"
def MethodDelete : String := "DELETE"

/-- The constant `http.StatusOK`. -/
def StatusOK : Int := 200

/-- The duration `time.Minute`, in nanoseconds. Instants of `time.Time` are natural
numbers of nanoseconds; the zero `time.Time` is `0`. -/
def Minute : Nat := 60 * 1000000000

/-! ## Data model -/

/-- A Go `map[K]V`: `none` is the nil map. -/
abbrev GoMap (κ ν : Type) := Option (List (κ × ν))

/-- The struct `Client`. The transport `Client.Client` is `Env.Do`; `SessionMutex`
has no effect on a single sequence of calls and is left out. -/
structure Client where
  ConsumerKey : String
  ConsumerSecret : String
  AccessToken : String
  AccessSecret : String
  AuthSessionToken : String
  SessionExpires : Nat
  UserAgent : String
  BaseUrl : String
  deriving DecidableEq, Repr

/-- The struct `oauth.Credentials`. -/
structure Credentials where
  Token : String
  Secret : String
  deriving DecidableEq, Repr

/-- What this package reads and writes of an `http.Request`. -/
structure Request where
  Method : String
  URL : String
  Header : List (String × String)
  Body : String
  deriving DecidableEq, Repr

/-- The call `req.Header.Add(key, value)`. -/
def Request.AddHeader (req : Request) (key value : String) : Request :=
  { req with Header := req.Header ++ [(key, value)] }

/-- What this package reads of an `http.Response`; `Body` is the text the body
stream delivers. -/
structure Response where
  StatusCode : Int
  Status : String
  Body : String
  deriving DecidableEq, Repr

structure Device where
  SerialNumber : String
  Model : String
  Description : String
  Color : String
  AssetTag : String
  ProfileStatus : String
  ProfileUUID : String
  ProfileAssignTime : String
  ProfileAssignDate : String
  ProfilePushTime : String
  DeviceAssignedBy : String
  OS : String
  DeviceFamily : String
  OpType : String
  OpDate : Nat
  ResponseStatus : String
  deriving DecidableEq, Repr

structure DeviceResponse where
  Devices : List Device
  Cursor : String
  FetchedUntil : Nat
  MoreToFollow : Bool
  deriving DecidableEq, Repr

structure DeviceRequestOpts where
  Cursor : String
  Limit : Int
  deriving DecidableEq, Repr

/-- The type `DeviceRequestOpt`, a `func(opts *DeviceRequestOpts) error`: the error
it returns and the request state it leaves behind. -/
abbrev DeviceRequestOpt := DeviceRequestOpts → Option Error × DeviceRequestOpts

structure GetDevicesResponse where
  Devices : GoMap String Device
  deriving DecidableEq, Repr

structure RequestLimit where
  Default : Int
  Maximum : Int
  deriving DecidableEq, Repr

structure URL where
  URI : String
  HttpMethod : String
  Limit : RequestLimit
  deriving DecidableEq, Repr

structure Account where
  ServerName : String
  ServerUUID : String
  AdminId : String
  FacilitatorId : String
  OrgId : String
  OrgIdHash : String
  OrgName : String
  OrgEmail : String
  OrgPhone : String
  OrgType : String
  OrgVersion : String
  URLs : List URL
  deriving DecidableEq, Repr

structure Profile where
  ProfileName : String
  ServerUrl : String
  AllowPairing : Bool
  Supervised : Bool
  MultiUser : Bool
  Mandatory : Bool
  AwaitDeviceConfiguration : Bool
  Removable : Bool
  AutoAdvanceSetup : Bool
  SupportPhoneNumber : String
  SupportEmailAddress : String
  OrganizationMagic : List String
  SupervisingHostCerts : List String
  SkipSetupItems : List String
  Department : String
  Devices : List String
  Language : String
  Region : String
  deriving DecidableEq, Repr

structure ProfileResponse where
  ProfileUUID : String
  Devices : GoMap String String
  deriving DecidableEq, Repr

structure ActivationLockRequest where
  Device : String
  EscrowKey : String
  LostMessage : String
  deriving DecidableEq, Repr

structure ActivationLockResponse where
  SerialNumber : String
  ResponseStatus : String
  deriving DecidableEq, Repr

/-- The local `authSessionToken` of `CreateSession`. -/
structure SessionBody where
  AuthSessionToken : String
  deriving DecidableEq, Repr

/-- The local `res` of `RemoveProfile`. -/
structure RemoveProfileBody where
  Devices : GoMap String String
  deriving DecidableEq, Repr

/-! Zero values of the destinations (`var res T`). -/

def Device.zero : Device :=
  ⟨"", "", "", "", "", "", "", "", "", "", "", "", "", "", 0, ""⟩
def DeviceResponse.zero : DeviceResponse := ⟨[], "", 0, false⟩
def GetDevicesResponse.zero : GetDevicesResponse := ⟨none⟩
def Account.zero : Account := ⟨"", "", "", "", "", "", "", "", "", "", "", []⟩
def Profile.zero : Profile :=
  ⟨"", "", false, false, false, false, false, false, false, "", "", [], [], [], "", [], "", ""⟩
def ProfileResponse.zero : ProfileResponse := ⟨"", none⟩
def ActivationLockResponse.zero : ActivationLockResponse := ⟨"", ""⟩
def SessionBody.zero : SessionBody := ⟨""⟩
def RemoveProfileBody.zero : RemoveProfileBody := ⟨none⟩

/-- The values this package passes as `body interface{}` to `CreateRequest`. -/
inductive Payload where
  | DeviceRequestOpts (request : DeviceRequestOpts)
  | Devices (devices : List String)
  | Profiles (opts : List Profile)
  | ActivationLockRequest (opts : ActivationLockRequest)
  deriving DecidableEq, Repr

/-! ## The world outside the package -/

/-- A call recorded in the trace. -/
inductive Event where
  | CreateSession
  | CreateRequest (method urlString : String)
  | Do (req : Request)
  deriving DecidableEq, Repr

/-- The state threaded through the operations: the receiver, how many readings of
`time.Now` were taken, and the calls made so far, oldest first. -/
structure World where
  client : Client
  reads : Nat
  trace : List Event
  deriving DecidableEq, Repr

def World.log (w : World) (e : Event) : World :=
  { w with trace := w.trace ++ [e] }

/-- How many times `CreateSession` was entered: the handshakes attempted. -/
def handshakes (trace : List Event) : Nat :=
  trace.count Event.CreateSession

/-- What `encoding/json` does with a destination of type `α`: its type name (for
`InvalidUnmarshalError`) and `unmarshal value v`, the destination after storing the
JSON value into `v`, with the error if any. -/
structure Unmarshaler (α : Type) where
  TypeName : String
  unmarshal : String → α → α × Option Error

/-- The collaborators of the package.
* `Now k` is reading number `k` of `time.Now()`.
* `Do trace req` is `client.Client.Do(req)` after the calls in `trace`.
* `Parse` is `url.Parse`; `ResolveReference base ref` is
  `base.ResolveReference(ref).String()`; `NewRequest method url` is the error of
  `http.NewRequest`; `AddQuery url key value` is the URL after adding a query
  parameter.
* `SetAuthorizationHeader consumer access method url` is the `Authorization` header
  the oauth1 client computes.
* `Encode` is `json.NewEncoder(..).Encode`; `readValue` is the first phase of
  `json.Decoder.Decode`, which reads one complete JSON value off the stream. -/
structure Env where
  Now : Nat → Nat
  Do : List Event → Request → Except Error Response
  Parse : String → Except Error String
  ResolveReference : String → String → String
  NewRequest : String → String → Option Error
  AddQuery : String → String → String → String
  SetAuthorizationHeader : Credentials → Credentials → String → String → Except Error String
  Encode : Payload → Except Error String
  readValue : String → Except Error String
  SessionBody : Unmarshaler SessionBody
  DeviceResponse : Unmarshaler DeviceResponse
  GetDevicesResponse : Unmarshaler GetDevicesResponse
  Account : Unmarshaler Account
  Profile : Unmarshaler Profile
  ProfileResponse : Unmarshaler ProfileResponse
  ActivationLockResponse : Unmarshaler ActivationLockResponse
  RemoveProfileBody : Unmarshaler RemoveProfileBody

/-- The argument `to interface{}` of `do` and of `Decode`: the address of a variable
holding `v`, or a copy of the value `v`. -/
inductive Target (α : Type) where
  | pointer (v : α)
  | value (v : α)

/-- The caller's variable behind a target. -/
def Target.get {α : Type} : Target α → α
  | .pointer v => v
  | .value v => v

/-- The call `json.NewDecoder(body).Decode(to)`, giving the caller's variable
afterwards and the error. The decoder first reads one JSON value (a syntax error
ends the call before anything is stored); then, as `json.Unmarshal` documents, a
destination that is not a pointer is refused with an `InvalidUnmarshalError`. -/
def Decode {α : Type} (env : Env) (u : Unmarshaler α) (body : String) :
    Target α → α × Option Error
  | .pointer v =>
    match env.readValue body with
    | .error err => (v, some err)
    | .ok value => u.unmarshal value v
  | .value v =>
    match env.readValue body with
    | .error err => (v, some err)
    | .ok _ => (v, some (.New ("json: Unmarshal(non-pointer " ++ u.TypeName ++ ")")))

/-! ## client.go -/

/-- The method `Client.CreateSession` (client.go 106-183). -/
def CreateSession (env : Env) (w0 : World) : Option Error × World :=
  let w := w0.log .CreateSession
  let client := w.client
  let consumerCreds : Credentials := ⟨client.ConsumerKey, client.ConsumerSecret⟩
  let accessToken : Credentials := ⟨client.AccessToken, client.AccessSecret⟩
  match env.Parse "/session" with
  | .error err => (some err, w)
  | .ok path =>
    let sessionUrl := env.ResolveReference client.BaseUrl path
    match env.NewRequest MethodGet sessionUrl with
    | some err => (some err, w)
    | none =>
      let req : Request := ⟨MethodGet, sessionUrl, [], ""⟩
      match env.SetAuthorizationHeader consumerCreds accessToken MethodGet req.URL with
      | .error err => (some err, w)
      | .ok authorization =>
        let req := req.AddHeader "Authorization" authorization
        let req := req.AddHeader "User-Agent" client.UserAgent
        let req := req.AddHeader "Content-Type" contentType
        let req := req.AddHeader "Accept" contentType
        let req := req.AddHeader XServerProtocolHeader ProtocolVersionNumber
        match env.Do w.trace req with
        | .error err => (some err, w.log (.Do req))
        | .ok res =>
          let w := w.log (.Do req)
          if res.StatusCode ≠ StatusOK then
            (some (.New ("DEP server did not provide OK. Returned: " ++ res.Status)), w)
          else
            match Decode env env.SessionBody res.Body (.pointer SessionBody.zero) with
            | (_, some err) =>
              (errors.Wrap (some err) "decoding AuthSessionToken from DEP response", w)
            | (authSessionToken, none) =>
              (none,
                { w with
                  client :=
                    { client with
                      AuthSessionToken := authSessionToken.AuthSessionToken
                      SessionExpires := env.Now w.reads + Minute * 3 }
                  reads := w.reads + 1 })

/-- The method `Client.GetSession` (client.go 84-104). `time.Now().After(t)` is
`t < now`. -/
def GetSession (env : Env) (w : World) : Option Error × World :=
  let first : Option Error × World :=
    if w.client.AuthSessionToken = "" then CreateSession env w else (none, w)
  match first with
  | (some err, w) =>
    (errors.Wrap (some err) "Failed to create new session with DEP server", w)
  | (none, w) =>
    let now := env.Now w.reads
    let w := { w with reads := w.reads + 1 }
    if w.client.SessionExpires < now then
      match CreateSession env w with
      | (some err, w) =>
        (errors.Wrap (some err) "Failed to create new auth session with DEP server", w)
      | (none, w) => (none, w)
    else
      (none, w)

/-- The method `Client.CreateRequest` (client.go 185-210). -/
def CreateRequest (env : Env) (w0 : World) (method urlString : String)
    (body : Option Payload) : Except Error Request × World :=
  let w := w0.log (.CreateRequest method urlString)
  match env.Parse urlString with
  | .error err =>
    (.error (.Wrap err ("Failed to parse DEP request path: " ++ urlString)), w)
  | .ok path =>
    let url := env.ResolveReference w.client.BaseUrl path
    let encoded : Except Error String :=
      match body with
      | none => .ok ""
      | some body => env.Encode body
    match encoded with
    | .error err => (.error (.Wrap err "Failed to encode DEP request body"), w)
    | .ok buffer =>
      match env.NewRequest method url with
      | some err =>
        (.error (.Wrap err
          ("Failed to create " ++ method ++ " request to DEP server " ++ url)), w)
      | none =>
        let req : Request := ⟨method, url, [], buffer⟩
        let req := req.AddHeader "User-Agent" w.client.UserAgent
        let req := req.AddHeader "Content-Type" contentType
        let req := req.AddHeader "Accept" contentType
        let req := req.AddHeader XServerProtocolHeader ProtocolVersionNumber
        (.ok req, w)

/-- The error `do` makes of a response whose status is not 200:
`errors.Errorf("Unexpected response received from DEP server. Response=%d | DEP API Error: %s", res.StatusCode, string(body))`. -/
def serverError (res : Response) : Error :=
  .New ("Unexpected response received from DEP server. Response="
    ++ toString res.StatusCode ++ " | DEP API Error: " ++ res.Body)

/-- The method `Client.do` (client.go 212-233): the error, the caller's destination
variable afterwards, and the world. -/
def do_ {α : Type} (env : Env) (u : Unmarshaler α) (w : World) (req : Request)
    (to_ : Target α) : (Option Error × α) × World :=
  match GetSession env w with
  | (some err, w) =>
    ((errors.Wrap (some err)
        ("Failed to get session for request to " ++ w.client.BaseUrl), to_.get), w)
  | (none, w) =>
    let req := req.AddHeader "X-ADM-Auth-Session" w.client.AuthSessionToken
    match env.Do w.trace req with
    | .error err =>
      ((errors.Wrap (some err) "Failed to perform DEP request", to_.get), w.log (.Do req))
    | .ok res =>
      let w := w.log (.Do req)
      if res.StatusCode ≠ StatusOK then
        ((some (serverError res), to_.get), w)
      else
        let (v, err) := Decode env u res.Body to_
        ((errors.Wrap err "Failed to decode DEP response body", v), w)

/-! ## device.go -/

/-- The option `Cursor` (device.go 53-58). -/
def Cursor (cursor : String) : DeviceRequestOpt :=
  fun opts => (none, { opts with Cursor := cursor })

/-- The error of `Limit`. -/
def limitError : Error := .New "limit cannot not be higher than 1000"

/-- The option `Limit` (device.go 62-70). -/
def Limit (limit : Int) : DeviceRequestOpt :=
  fun opts =>
    if limit > 1000 then (some limitError, opts)
    else (none, { opts with Limit := limit })

/-- The loop `for _, option := range opts` of `GetAllDevices` and `SyncDevices`:
the first error ends it. -/
def applyOpts : List DeviceRequestOpt → DeviceRequestOpts → Except Error DeviceRequestOpts
  | [], request => .ok request
  | option :: opts, request =>
    match option request with
    | (some err, _) => .error err
    | (none, request) => applyOpts opts request

/-- The method `Client.GetAllDevices` (device.go 72-89). -/
def GetAllDevices (env : Env) (w : World) (opts : List DeviceRequestOpt) :
    (Option DeviceResponse × Option Error) × World :=
  match applyOpts opts ⟨"", 0⟩ with
  | .error err => ((none, some err), w)
  | .ok request =>
    match CreateRequest env w MethodPost GetAllDevicesPath (some (.DeviceRequestOpts request)) with
    | (.error err, w) =>
      ((none, errors.Wrap (some err) "Failed to create GetAllDevices request"), w)
    | (.ok req, w) =>
      match do_ env env.DeviceResponse w req (.pointer DeviceResponse.zero) with
      | ((err, res), w) =>
        ((some res, errors.Wrap err "Error running GetAllDevices request"), w)

/-- The method `Client.SyncDevices` (device.go 91-110). -/
def SyncDevices (env : Env) (w : World) (cursor : String) (opts : List DeviceRequestOpt) :
    (Option DeviceResponse × Option Error) × World :=
  match applyOpts opts ⟨cursor, 0⟩ with
  | .error err => ((none, some err), w)
  | .ok request =>
    match CreateRequest env w MethodPost SyncDevicesPath (some (.DeviceRequestOpts request)) with
    | (.error err, w) =>
      ((none, errors.Wrap (some err) "Failed to create SyncDevices request"), w)
    | (.ok req, w) =>
      match do_ env env.DeviceResponse w req (.pointer DeviceResponse.zero) with
      | ((err, res), w) =>
        ((some res, errors.Wrap err "Error running SyncDevices request"), w)

/-- The method `Client.GetDevices` (device.go 116-131). -/
def GetDevices (env : Env) (w : World) (serials : List String) :
    (Option GetDevicesResponse × Option Error) × World :=
  match CreateRequest env w MethodPost GetDevicesPath (some (.Devices serials)) with
  | (.error err, w) =>
    ((none, errors.Wrap (some err) "Failed to create GetDevices request"), w)
  | (.ok req, w) =>
    match do_ env env.GetDevicesResponse w req (.pointer GetDevicesResponse.zero) with
    | ((err, res), w) =>
      ((some res, errors.Wrap err "Error running GetDevices request"), w)

/-! ## account.go -/

/-- The method `Client.GetAccount` (account.go 37-47). The destination is handed to
`do` as `acct`, a copy, not as `&acct`. -/
def GetAccount (env : Env) (w : World) : (Option Account × Option Error) × World :=
  match CreateRequest env w MethodGet "account" none with
  | (.error err, w) =>
    ((none, errors.Wrap (some err) "Account request creation failed"), w)
  | (.ok req, w) =>
    match do_ env env.Account w req (.value Account.zero) with
    | ((err, acct), w) =>
      ((some acct, errors.Wrap err "Get account request failed"), w)

/-! ## profile.go -/

/-- The method `Client.GetProfile` (profile.go 43-56). -/
def GetProfile (env : Env) (w : World) (uuid : String) :
    (Option Profile × Option Error) × World :=
  match CreateRequest env w MethodGet GetProfilePath none with
  | (.error err, w) =>
    ((none, errors.Wrap (some err) "Failed to create GetProfile request"), w)
  | (.ok req, w) =>
    let req := { req with URL := env.AddQuery req.URL "profile_uuid" uuid }
    match do_ env env.Profile w req (.pointer Profile.zero) with
    | ((err, res), w) =>
      ((some res, errors.Wrap err "Error running GetProfile request"), w)

/-- The method `Client.CreateProfile` (profile.go 58-67). -/
def CreateProfile (env : Env) (w : World) (opts : List Profile) :
    (Option ProfileResponse × Option Error) × World :=
  match CreateRequest env w MethodPost CreateProfilePath (some (.Profiles opts)) with
  | (.error err, w) =>
    ((none, errors.Wrap (some err) "Failed to create GetProfile request"), w)
  | (.ok req, w) =>
    match do_ env env.ProfileResponse w req (.pointer ProfileResponse.zero) with
    | ((err, res), w) =>
      ((some res, errors.Wrap err "Error running CreateProfile request"), w)

/-- The method `Client.AssignProfile` (profile.go 69-84). The parameter `uuid` is
not used by the source either. -/
def AssignProfile (env : Env) (w : World) (_uuid : String) (devices : List String) :
    (Option ProfileResponse × Option Error) × World :=
  match CreateRequest env w MethodPost AssignProfilePath (some (.Devices devices)) with
  | (.error err, w) =>
    ((none, errors.Wrap (some err) "Failed to create AssignProfile request"), w)
  | (.ok req, w) =>
    match do_ env env.ProfileResponse w req (.pointer ProfileResponse.zero) with
    | ((err, res), w) =>
      ((some res, errors.Wrap err "Error running AssignProfile request"), w)

/-- The method `Client.RemoveProfile` (profile.go 86-103): the result is the map
`res.Devices`. -/
def RemoveProfile (env : Env) (w : World) (devices : List String) :
    (GoMap String String × Option Error) × World :=
  match CreateRequest env w MethodDelete RemoveProfilePath (some (.Devices devices)) with
  | (.error err, w) =>
    ((none, errors.Wrap (some err) "Failed to create RemoveProfile request"), w)
  | (.ok req, w) =>
    match do_ env env.RemoveProfileBody w req (.pointer RemoveProfileBody.zero) with
    | ((err, res), w) =>
      ((res.Devices, errors.Wrap err "Error running RemoveProfile request"), w)

/-! ## activation_lock.go -/

/-- The method `Client.LockDevice` (activation_lock.go 22-33). -/
def LockDevice (env : Env) (w : World) (opts : ActivationLockRequest) :
    (Option ActivationLockResponse × Option Error) × World :=
  match CreateRequest env w MethodPost ActivationLockPath (some (.ActivationLockRequest opts)) with
  | (.error err, w) =>
    ((none, errors.Wrap (some err) "Failed to create LockDevice request"), w)
  | (.ok req, w) =>
    match do_ env env.ActivationLockResponse w req (.pointer ActivationLockResponse.zero) with
    | ((err, res), w) =>
      ((some res, errors.Wrap err "Error running LockDevice request"), w)

/-- The type `OAuthParams`. -/
structure OAuthParams where
  ConsumerKey : String
  ConsumerSecret : String
  AccessToken : String
  AccessSecret : String
  deriving DecidableEq, Repr

/-- The function `CreateClient` (client.go 65-82); an `Option` is a function on the
client. The token is empty and the expiry is the zero time. -/
def CreateClient (params : OAuthParams) (opts : List (Client → Client)) : Client :=
  opts.foldl (fun client optnFn => optnFn client)
    { ConsumerKey := params.ConsumerKey
      ConsumerSecret := params.ConsumerSecret
      AccessToken := params.AccessToken
      AccessSecret := params.AccessSecret
      AuthSessionToken := ""
      SessionExpires := 0
      UserAgent := "teleport_mdm/v0.0.1-ALPHA"
      BaseUrl := "https://mdmenrollment.apple.com/" }

/-! ## A scripted server, for the concrete runs -/

namespace Script

/-- A transport that answers call number `k` with entry `k` of the script, and
refuses the connection once the script is used up. -/
def transport (script : List (Except Error Response)) :
    List Event → Request → Except Error Response :=
  fun trace _ =>
    let k := (trace.filter (fun e => match e with | .Do _ => true | _ => false)).length
    (script.get? k).getD (.error (.New "dial tcp: connection refused"))

/-- The JSON text of a device request state, as `encoding/json` writes it for plain
cursors: empty fields are omitted. -/
def encodeOpts (o : DeviceRequestOpts) : String :=
  "\x7b" ++ ",".intercalate
    ((if o.Cursor = "" then [] else ["\"cursor\":\"" ++ o.Cursor ++ "\""]) ++
     (if o.Limit = 0 then [] else ["\"limit\":" ++ toString o.Limit])) ++ "\x7d\n"

def sessionJSON : String := "\x7b\"auth_session_token\":\"tok-1\"\x7d"
def badSessionJSON : String := "\x7b\"error\":\"bad session\"\x7d"
def accountJSON : String := "\x7b\"server_name\":\"Acme\"\x7d"
def page1JSON : String :=
  "\x7b\"devices\":[],\"cursor\":\"c1\",\"more_to_follow\":true\x7d"
def page2JSON : String :=
  "\x7b\"devices\":[\x7b\"serial_number\":\"S1\"\x7d],\"cursor\":\"c2\",\"more_to_follow\":false\x7d"

def page1 : DeviceResponse := { DeviceResponse.zero with Cursor := "c1", MoreToFollow := true }
def page2 : DeviceResponse :=
  { Devices := [{ Device.zero with SerialNumber := "S1" }]
    Cursor := "c2", FetchedUntil := 0, MoreToFollow := false }

/-- An environment for the concrete runs: the clock and the transport are given,
URLs are joined textually, nothing fails to build, and the JSON library is a table
over the few bodies the runs use (what `encoding/json` yields for them). -/
def env (clock : Nat → Nat) (script : List (Except Error Response)) : Env where
  Now := clock
  Do := transport script
  Parse := fun s => .ok s
  ResolveReference := fun base ref =>
    match ref.data with
    | '/' :: rest => base ++ String.mk rest
    | _ => base ++ ref
  NewRequest := fun _ _ => none
  AddQuery := fun url key value => url ++ "?" ++ key ++ "=" ++ value
  SetAuthorizationHeader := fun _ _ _ _ => .ok "OAuth oauth_signature_method=\"HMAC-SHA1\""
  Encode := fun
    | .DeviceRequestOpts o => .ok (encodeOpts o)
    | _ => .ok "null\n"
  readValue := fun body =>
    if body = "" then .error (.New "EOF")
    else if body = "not json" then .error (.New "invalid character in literal null")
    else .ok body
  SessionBody := ⟨"struct", fun value v =>
    if value = sessionJSON then (⟨"tok-1"⟩, none) else (v, none)⟩
  DeviceResponse := ⟨"dep.DeviceResponse", fun value v =>
    if value = page1JSON then (page1, none)
    else if value = page2JSON then (page2, none) else (v, none)⟩
  GetDevicesResponse := ⟨"dep.GetDevicesResponse", fun _ v => (v, none)⟩
  Account := ⟨"dep.Account", fun value v =>
    if value = accountJSON then ({ v with ServerName := "Acme" }, none) else (v, none)⟩
  Profile := ⟨"dep.Profile", fun _ v => (v, none)⟩
  ProfileResponse := ⟨"dep.ProfileResponse", fun _ v => (v, none)⟩
  ActivationLockResponse := ⟨"dep.ActivationLockResponse", fun _ v => (v, none)⟩
  RemoveProfileBody := ⟨"struct", fun _ v => (v, none)⟩

/-- A fresh client, as `CreateClient` returns it. -/
def fresh : World :=
  ⟨CreateClient ⟨"ck", "cs", "at", "as"⟩ [], 0, []⟩

/-- A client holding the token `tok-0` that expires at instant `expires`. -/
def holding (expires : Nat) : World :=
  ⟨{ fresh.client with AuthSessionToken := "tok-0", SessionExpires := expires }, 0, []⟩

def ok (status : Int) (body : String) : Except Error Response :=
  .ok ⟨status, toString status, body⟩

/-- The handshake request of the fresh client under `Script.env`. -/
def handshake : Request :=
  ⟨"GET", "https://mdmenrollment.apple.com/session",
    [("Authorization", "OAuth oauth_signature_method=\"HMAC-SHA1\""),
     ("User-Agent", "teleport_mdm/v0.0.1-ALPHA"),
     ("Content-Type", "application/json;charset=UTF8"),
     ("Accept", "application/json;charset=UTF8"),
     ("X-Server-Protocol-Version", "3")], ""⟩

/-- A clock that advances by one nanosecond per reading, starting at 1000. -/
def ticking : Nat → Nat := fun k => 1000 + k

/-- A server that answers the first call with a session token. -/
def answering : Env := env ticking [ok 200 sessionJSON]

/-- A server that cannot be reached. -/
def unreachable : Env := env ticking []

/-- A clock that reads 1000 first and has moved on by more than four minutes at
every later reading. -/
def jumping : Nat → Nat
  | 0 => 1000
  | k + 1 => 1000 + Minute * 4 + k

/-- A server that answers the first handshake with a token and the second with
status 503, under the jumping clock. -/
def lapsing : Env := env jumping [ok 200 sessionJSON, ok 503 ""]

/-- A server that refuses the first connection and answers the second call with a
session token. -/
def flaky : Env :=
  env ticking [.error (.New "dial tcp: connection refused"), ok 200 sessionJSON]

/-- A server that answers the first call with the given status and body. -/
def replying (status : Int) (body : String) : Env := env ticking [ok status body]

/-- A server that answers the first call with the first page and the second call
with the last page. -/
def paging : Env := env ticking [ok 200 page1JSON, ok 200 page2JSON]

/-- The request `SyncDevices` builds for the client of `holding` from a request
state. -/
def syncing (request : DeviceRequestOpts) : Request :=
  ⟨"POST", "https://mdmenrollment.apple.com/devices/sync",
    [("User-Agent", "teleport_mdm/v0.0.1-ALPHA"),
     ("Content-Type", "application/json;charset=UTF8"),
     ("Accept", "application/json;charset=UTF8"),
     ("X-Server-Protocol-Version", "3")], encodeOpts request⟩

/-- The request `GetAllDevices` builds for the client of `holding`, without
options. -/
def listing : Request :=
  ⟨"POST", "https://mdmenrollment.apple.com/server/devices",
    [("User-Agent", "teleport_mdm/v0.0.1-ALPHA"),
     ("Content-Type", "application/json;charset=UTF8"),
     ("Accept", "application/json;charset=UTF8"),
     ("X-Server-Protocol-Version", "3")], "\x7b\x7d\n"⟩

end Script

/-! ## Statement helpers -/

/-- The request `CreateSession` builds and signs before it calls the transport
(client.go 110-159), or the error that ends it early. -/
def sessionRequest (env : Env) (client : Client) : Except Error Request :=
  match env.Parse "/session" with
  | .error err => .error err
  | .ok path =>
    let sessionUrl := env.ResolveReference client.BaseUrl path
    match env.NewRequest MethodGet sessionUrl with
    | some err => .error err
    | none =>
      match env.SetAuthorizationHeader ⟨client.ConsumerKey, client.ConsumerSecret⟩
          ⟨client.AccessToken, client.AccessSecret⟩ MethodGet sessionUrl with
      | .error err => .error err
      | .ok authorization =>
        .ok ⟨MethodGet, sessionUrl,
          [("Authorization", authorization), ("User-Agent", client.UserAgent),
           ("Content-Type", contentType), ("Accept", contentType),
           (XServerProtocolHeader, ProtocolVersionNumber)], ""⟩

/-- The request `do` sends: the built request stamped with the session token. -/
def stamped (req : Request) (w : World) : Request :=
  req.AddHeader "X-ADM-Auth-Session" w.client.AuthSessionToken

deriving instance DecidableEq for Except

/-- Calls of `GetSession` made concurrently by `n` callers. `GetSession` takes
`SessionMutex` in its first statement and releases it on return (client.go 86-87),
so the calls run one at a time, each on the state the one before left, in the order
in which the callers get the lock. The result lists what each caller is returned. -/
def GetSessions (env : Env) : Nat → World → List (Option Error) × World
  | 0, w => ([], w)
  | n + 1, w =>
    ((GetSession env w).1 :: (GetSessions env n (GetSession env w).2).1,
      (GetSessions env n (GetSession env w).2).2)

/-- A nil map returned together with an error. -/
def NilWithError (out : GoMap String String × Option Error) : Prop :=
  out.1 = none ∧ ∃ err, out.2 = some err

/-- An option made by one of the two constructors of the package. -/
def IsPackageOpt (o : DeviceRequestOpt) : Prop :=
  (∃ cursor, o = Cursor cursor) ∨ (∃ limit, o = Limit limit)

end dep

namespace dep

/-! ## Lemmas on the session manager -/

theorem CreateSession_eq (env : Env) (w : World) :
    CreateSession env w =
      match sessionRequest env w.client with
      | .error err => (some err, w.log .CreateSession)
      | .ok req =>
        match env.Do (w.trace ++ [.CreateSession]) req with
        | .error err => (some err, ⟨w.client, w.reads, w.trace ++ [.CreateSession, .Do req]⟩)
        | .ok res =>
          if res.StatusCode ≠ StatusOK then
            (some (.New ("DEP server did not provide OK. Returned: " ++ res.Status)),
              ⟨w.client, w.reads, w.trace ++ [.CreateSession, .Do req]⟩)
          else
            match Decode env env.SessionBody res.Body (.pointer SessionBody.zero) with
            | (_, some err) =>
              (some (.Wrap err "decoding AuthSessionToken from DEP response"),
                ⟨w.client, w.reads, w.trace ++ [.CreateSession, .Do req]⟩)
            | (body, none) =>
              (none,
                ⟨{ w.client with
                    AuthSessionToken := body.AuthSessionToken
                    SessionExpires := env.Now w.reads + Minute * 3 },
                  w.reads + 1, w.trace ++ [.CreateSession, .Do req]⟩) := by
  unfold CreateSession sessionRequest
  simp only [World.log, Request.AddHeader, List.nil_append, List.cons_append,
    List.append_assoc, errors.Wrap]
  cases env.Parse "/session" with
  | error e => rfl
  | ok path =>
    simp only []
    cases env.NewRequest MethodGet (env.ResolveReference w.client.BaseUrl path) with
    | some e => rfl
    | none =>
      simp only []
      cases env.SetAuthorizationHeader ⟨w.client.ConsumerKey, w.client.ConsumerSecret⟩
          ⟨w.client.AccessToken, w.client.AccessSecret⟩ MethodGet
          (env.ResolveReference w.client.BaseUrl path) with
      | error e => rfl
      | ok authorization => rfl

theorem handshakes_append (tr : List Event) (req : Request) :
    handshakes (tr ++ [.CreateSession, .Do req]) = handshakes tr + 1 := by
  simp [handshakes, List.count_append, List.count_cons]

theorem handshakes_log (tr : List Event) :
    handshakes (tr ++ [.CreateSession]) = handshakes tr + 1 := by
  simp [handshakes, List.count_append]

/-- Every way `CreateSession` can end. -/
theorem CreateSession_cases (env : Env) (w : World) :
    (∃ err, sessionRequest env w.client = .error err ∧
        CreateSession env w = (some err, w.log .CreateSession)) ∨
    (∃ req err, sessionRequest env w.client = .ok req ∧
        ((∃ e, env.Do (w.trace ++ [.CreateSession]) req = .error e) ∨
          ∃ res, env.Do (w.trace ++ [.CreateSession]) req = .ok res ∧
            (res.StatusCode ≠ StatusOK ∨
              ∃ e, (Decode env env.SessionBody res.Body (.pointer SessionBody.zero)).2 = some e)) ∧
        CreateSession env w =
          (some err, ⟨w.client, w.reads, w.trace ++ [.CreateSession, .Do req]⟩)) ∨
    (∃ req res body, sessionRequest env w.client = .ok req ∧
        env.Do (w.trace ++ [.CreateSession]) req = .ok res ∧
        res.StatusCode = StatusOK ∧
        Decode env env.SessionBody res.Body (.pointer SessionBody.zero) = (body, none) ∧
        CreateSession env w =
          (none,
            ⟨{ w.client with
                AuthSessionToken := body.AuthSessionToken
                SessionExpires := env.Now w.reads + Minute * 3 },
              w.reads + 1, w.trace ++ [.CreateSession, .Do req]⟩)) := by
  rw [CreateSession_eq]
  cases hreq : sessionRequest env w.client with
  | error err => exact Or.inl ⟨err, rfl, rfl⟩
  | ok req =>
    simp only []
    cases hdo : env.Do (w.trace ++ [.CreateSession]) req with
    | error e => exact Or.inr (Or.inl ⟨req, e, rfl, Or.inl ⟨e, hdo⟩, rfl⟩)
    | ok res =>
      simp only []
      by_cases hst : res.StatusCode = StatusOK
      · rcases hdec : Decode env env.SessionBody res.Body (.pointer SessionBody.zero) with
          ⟨body, _ | e⟩
        · refine Or.inr (Or.inr ⟨req, res, body, rfl, hdo, hst, hdec, ?_⟩)
          simp [hst]
        · refine Or.inr (Or.inl ⟨req, .Wrap e "decoding AuthSessionToken from DEP response", rfl,
            Or.inr ⟨res, hdo, Or.inr ⟨e, by rw [hdec]⟩⟩, ?_⟩)
          simp [hst]
      · refine Or.inr (Or.inl ⟨req, .New ("DEP server did not provide OK. Returned: " ++ res.Status), rfl,
          Or.inr ⟨res, hdo, Or.inl hst⟩, ?_⟩)
        simp [hst]

/-- A handshake that fails after its request was built. -/
theorem CreateSession_of_failure (env : Env) (w : World) (req : Request)
    (hreq : sessionRequest env w.client = .ok req)
    (hfail : (∃ e, env.Do (w.trace ++ [.CreateSession]) req = .error e) ∨
      ∃ res, env.Do (w.trace ++ [.CreateSession]) req = .ok res ∧
        (res.StatusCode ≠ StatusOK ∨
          ∃ e, (Decode env env.SessionBody res.Body (.pointer SessionBody.zero)).2 = some e)) :
    ∃ err, CreateSession env w =
      (some err, ⟨w.client, w.reads, w.trace ++ [.CreateSession, .Do req]⟩) := by
  rcases CreateSession_cases env w with ⟨err, h, _⟩ | ⟨req1, err, h1, _, h⟩ |
    ⟨req1, res, body, h1, hdo, hst, hdec, _⟩
  · rw [hreq] at h; cases h
  · rw [hreq] at h1; cases h1; exact ⟨err, h⟩
  · rw [hreq] at h1; cases h1
    rcases hfail with ⟨e, he⟩ | ⟨res1, hres, hbad⟩
    · rw [hdo] at he; cases he
    · rw [hdo] at hres; cases hres
      rcases hbad with hne | ⟨e, he⟩
      · exact absurd hst hne
      · rw [hdec] at he; cases he

theorem CreateSession_handshakes (env : Env) (w : World) :
    handshakes (CreateSession env w).2.trace = handshakes w.trace + 1 := by
  rcases CreateSession_cases env w with ⟨err, _, h⟩ | ⟨req, err, _, _, h⟩ |
    ⟨req, res, body, _, _, _, _, h⟩
  · rw [h]; exact handshakes_log _
  · rw [h]; exact handshakes_append _ _
  · rw [h]; exact handshakes_append _ _

theorem CreateSession_trace (env : Env) (w : World) :
    ∃ rest, (CreateSession env w).2.trace = w.trace ++ .CreateSession :: rest := by
  rcases CreateSession_cases env w with ⟨err, _, h⟩ | ⟨req, err, _, _, h⟩ |
    ⟨req, res, body, _, _, _, _, h⟩
  · rw [h]; exact ⟨[], rfl⟩
  · rw [h]; exact ⟨[.Do req], rfl⟩
  · rw [h]; exact ⟨[.Do req], rfl⟩

/-- The method `GetSession` when no token is held. -/
theorem GetSession_empty (env : Env) (w : World) (h : w.client.AuthSessionToken = "") :
    GetSession env w =
      match CreateSession env w with
      | (some err, w1) =>
        (some (.Wrap err "Failed to create new session with DEP server"), w1)
      | (none, w1) =>
        if w1.client.SessionExpires < env.Now w1.reads then
          match CreateSession env { w1 with reads := w1.reads + 1 } with
          | (some err, w2) =>
            (some (.Wrap err "Failed to create new auth session with DEP server"), w2)
          | (none, w2) => (none, w2)
        else (none, { w1 with reads := w1.reads + 1 }) := by
  unfold GetSession
  simp only [h, if_true]
  rcases CreateSession env w with ⟨_ | e, w1⟩ <;> rfl

/-- The method `GetSession` when a token is held. -/
theorem GetSession_held (env : Env) (w : World) (h : w.client.AuthSessionToken ≠ "") :
    GetSession env w =
      if w.client.SessionExpires < env.Now w.reads then
        match CreateSession env { w with reads := w.reads + 1 } with
        | (some err, w2) =>
          (some (.Wrap err "Failed to create new auth session with DEP server"), w2)
        | (none, w2) => (none, w2)
      else (none, { w with reads := w.reads + 1 }) := by
  unfold GetSession
  simp only [h, if_false]
  split
  · rcases CreateSession env _ with ⟨_ | e, w1⟩ <;> rfl
  · rfl

/-! ## The session manager: claims -/

/-- A call that needs a handshake, and can build its request, sends that one
request and nothing else. -/
theorem GetSession_one_request (env : Env) (w : World) (req : Request)
    (hclock : w.client.AuthSessionToken = "" →
      env.Now (w.reads + 1) ≤ env.Now w.reads + Minute * 3)
    (hreq : sessionRequest env w.client = .ok req)
    (hneed : w.client.AuthSessionToken = "" ∨ w.client.SessionExpires < env.Now w.reads) :
    (GetSession env w).2.trace = w.trace ++ [.CreateSession, .Do req] := by
  by_cases htok : w.client.AuthSessionToken = ""
  · rw [GetSession_empty env w htok]
    rcases CreateSession_cases env w with ⟨err, h1, _⟩ | ⟨req1, err, h1, _, h⟩ |
      ⟨req1, res, body, h1, _, _, _, h⟩
    · rw [hreq] at h1; cases h1
    · rw [hreq] at h1; cases h1
      rw [h]
    · rw [hreq] at h1; cases h1
      rw [h]
      have hnot : ¬ (env.Now w.reads + Minute * 3 < env.Now (w.reads + 1)) :=
        not_lt.mpr (hclock htok)
      simp only [hnot, if_false]
  · have hexp : w.client.SessionExpires < env.Now w.reads := hneed.resolve_left htok
    rw [GetSession_held env w htok, if_pos hexp]
    rcases CreateSession_cases env { w with reads := w.reads + 1 } with
      ⟨err, h1, _⟩ | ⟨req1, err, h1, _, h⟩ | ⟨req1, res, body, h1, _, _, _, h⟩
    · rw [hreq] at h1; cases h1
    · rw [hreq] at h1; cases h1
      rw [h]
    · rw [hreq] at h1; cases h1
      rw [h]

/-- The number of handshakes of one call. -/
theorem GetSession_count (env : Env) (w : World)
    (hclock : w.client.AuthSessionToken = "" →
      env.Now (w.reads + 1) ≤ env.Now w.reads + Minute * 3) :
    handshakes (GetSession env w).2.trace =
        handshakes w.trace +
          (if w.client.AuthSessionToken = "" ∨ w.client.SessionExpires < env.Now w.reads
            then 1 else 0) := by
  by_cases htok : w.client.AuthSessionToken = ""
  · rw [GetSession_empty env w htok, if_pos (Or.inl htok)]
    rcases CreateSession_cases env w with ⟨err, _, h⟩ | ⟨req, err, _, _, h⟩ |
      ⟨req, res, body, _, _, _, _, h⟩
    · rw [h]; exact handshakes_log _
    · rw [h]; exact handshakes_append _ _
    · rw [h]
      have hnot : ¬ (env.Now w.reads + Minute * 3 < env.Now (w.reads + 1)) :=
        not_lt.mpr (hclock htok)
      simp only [hnot, if_false]
      exact handshakes_append _ _
  · rw [GetSession_held env w htok]
    by_cases hexp : w.client.SessionExpires < env.Now w.reads
    · rw [if_pos hexp, if_pos (Or.inr hexp)]
      have hcount := CreateSession_handshakes env { w with reads := w.reads + 1 }
      rcases hcs : CreateSession env { w with reads := w.reads + 1 } with ⟨_ | e, w3⟩
      · rw [hcs] at hcount; exact hcount
      · rw [hcs] at hcount; exact hcount
    · have hnone : ¬ (w.client.AuthSessionToken = "" ∨
          w.client.SessionExpires < env.Now w.reads) := by
        rintro (h | h)
        · exact htok h
        · exact hexp h
      rw [if_neg hexp, if_neg hnone]; rfl

/-- C1 (as amended). `GetSession` enters `CreateSession` exactly once when no token
is held or the clock reading is strictly after `SessionExpires`, and then the one
handshake request, if it can be built, is the only request sent; otherwise it enters
it not at all, and the token, the expiry and the trace are untouched (only the clock
was read). A reading equal to `SessionExpires` does not refresh. For a client
without token the count of one needs the expiry check, which reads the clock again,
to fall within the 3 minutes that the fresh session lasts. -/
theorem GetSession_handshake_count (env : Env) (w : World)
    (hclock : w.client.AuthSessionToken = "" →
      env.Now (w.reads + 1) ≤ env.Now w.reads + Minute * 3) :
    handshakes (GetSession env w).2.trace =
        handshakes w.trace +
          (if w.client.AuthSessionToken = "" ∨ w.client.SessionExpires < env.Now w.reads
            then 1 else 0) ∧
    (w.client.AuthSessionToken = "" ∨ w.client.SessionExpires < env.Now w.reads →
      ∀ req, sessionRequest env w.client = .ok req →
        (GetSession env w).2.trace = w.trace ++ [.CreateSession, .Do req]) ∧
    (¬ (w.client.AuthSessionToken = "" ∨ w.client.SessionExpires < env.Now w.reads) →
      GetSession env w = (none, { w with reads := w.reads + 1 })) := by
  refine ⟨GetSession_count env w hclock,
    fun hneed req hreq => GetSession_one_request env w req hclock hreq hneed, ?_⟩
  intro hnone
  have htok : w.client.AuthSessionToken ≠ "" := fun h => hnone (Or.inl h)
  have hexp : ¬ w.client.SessionExpires < env.Now w.reads := fun h => hnone (Or.inr h)
  rw [GetSession_held env w htok, if_neg hexp]

/-- Witness for C1: a fresh client under a ticking clock and a server that answers
the handshake: one handshake, one request. -/
theorem GetSession_handshake_count_witness :
    (Script.fresh.client.AuthSessionToken = "" →
        Script.answering.Now (Script.fresh.reads + 1) ≤
          Script.answering.Now Script.fresh.reads + Minute * 3) ∧
    handshakes (GetSession Script.answering Script.fresh).2.trace =
      handshakes Script.fresh.trace + 1 ∧
    (GetSession Script.answering Script.fresh).2.trace =
      Script.fresh.trace ++ [.CreateSession, .Do Script.handshake] :=
  ⟨by decide,
    (GetSession_handshake_count Script.answering Script.fresh (by decide)).1,
    (GetSession_handshake_count Script.answering Script.fresh (by decide)).2.1 (Or.inl rfl)
      Script.handshake (by decide)⟩

/-- Counterexample to C1 as stated: a client holds a token that expires at instant
1000 and the clock reads exactly 1000; the claim has `GetSession` refresh, the code
performs no handshake. -/
theorem GetSession_no_refresh_at_expiry :
    ¬ ((Script.holding 1000).client.SessionExpires ≤
          (Script.env (fun _ => 1000) []).Now (Script.holding 1000).reads →
        handshakes (GetSession (Script.env (fun _ => 1000) []) (Script.holding 1000)).2.trace =
          handshakes (Script.holding 1000).trace + 1) := by
  decide

/-- A call that needs a handshake starts by entering `CreateSession`. -/
theorem GetSession_trace_of_need (env : Env) (w : World)
    (hneed : w.client.AuthSessionToken = "" ∨ w.client.SessionExpires < env.Now w.reads) :
    ∃ rest, (GetSession env w).2.trace = w.trace ++ .CreateSession :: rest := by
  by_cases htok : w.client.AuthSessionToken = ""
  · rw [GetSession_empty env w htok]
    obtain ⟨rest1, h1⟩ := CreateSession_trace env w
    rcases hcs : CreateSession env w with ⟨_ | e, w1⟩
    · rw [hcs] at h1
      simp only []
      split
      · obtain ⟨rest2, h2⟩ := CreateSession_trace env { w1 with reads := w1.reads + 1 }
        rcases hcs2 : CreateSession env { w1 with reads := w1.reads + 1 } with ⟨_ | e, w2⟩
        · rw [hcs2] at h2
          refine ⟨rest1 ++ .CreateSession :: rest2, ?_⟩
          simp only [] at h1 h2 ⊢
          rw [h2, h1]; simp
        · rw [hcs2] at h2
          refine ⟨rest1 ++ .CreateSession :: rest2, ?_⟩
          simp only [] at h1 h2 ⊢
          rw [h2, h1]; simp
      · exact ⟨rest1, h1⟩
    · rw [hcs] at h1
      exact ⟨rest1, h1⟩
  · have hexp : w.client.SessionExpires < env.Now w.reads := hneed.resolve_left htok
    rw [GetSession_held env w htok, if_pos hexp]
    obtain ⟨rest, h⟩ := CreateSession_trace env { w with reads := w.reads + 1 }
    rcases hcs : CreateSession env { w with reads := w.reads + 1 } with ⟨_ | e, w2⟩
    · rw [hcs] at h; exact ⟨rest, h⟩
    · rw [hcs] at h; exact ⟨rest, h⟩

/-- A call that fails while making a single handshake leaves the client alone. -/
theorem GetSession_error (env : Env) (w : World)
    (hclock : w.client.AuthSessionToken = "" →
      env.Now (w.reads + 1) ≤ env.Now w.reads + Minute * 3)
    (err : Error) (herr : (GetSession env w).1 = some err) :
    (GetSession env w).2.client = w.client ∧
    handshakes (GetSession env w).2.trace = handshakes w.trace + 1 ∧
    ((w.client.AuthSessionToken = "" ∧ (GetSession env w).2.reads = w.reads) ∨
      (w.client.SessionExpires < env.Now w.reads ∧
        (GetSession env w).2.reads = w.reads + 1)) := by
  by_cases htok : w.client.AuthSessionToken = ""
  · rw [GetSession_empty env w htok] at herr ⊢
    rcases CreateSession_cases env w with ⟨e, _, h⟩ | ⟨req, e, _, _, h⟩ |
      ⟨req, res, body, _, _, _, _, h⟩
    · rw [h]; exact ⟨rfl, handshakes_log _, Or.inl ⟨htok, rfl⟩⟩
    · rw [h]; exact ⟨rfl, handshakes_append _ _, Or.inl ⟨htok, rfl⟩⟩
    · rw [h] at herr
      have hnot : ¬ (env.Now w.reads + Minute * 3 < env.Now (w.reads + 1)) :=
        not_lt.mpr (hclock htok)
      simp only [hnot, if_false] at herr
      cases herr
  · rw [GetSession_held env w htok] at herr ⊢
    by_cases hexp : w.client.SessionExpires < env.Now w.reads
    · rw [if_pos hexp] at herr ⊢
      rcases CreateSession_cases env { w with reads := w.reads + 1 } with
        ⟨e, _, h⟩ | ⟨req, e, _, _, h⟩ | ⟨req, res, body, _, _, _, _, h⟩
      · rw [h]; exact ⟨rfl, handshakes_log _, Or.inr ⟨hexp, rfl⟩⟩
      · rw [h]; exact ⟨rfl, handshakes_append _ _, Or.inr ⟨hexp, rfl⟩⟩
      · rw [h] at herr; cases herr
    · rw [if_neg hexp] at herr; cases herr

/-- After a call that failed while making a single handshake, the next call starts
with a handshake of its own. -/
theorem GetSession_after_error (env : Env) (w : World)
    (hclock : w.client.AuthSessionToken = "" →
      env.Now (w.reads + 1) ≤ env.Now w.reads + Minute * 3)
    (hmono : Monotone env.Now)
    (err : Error) (herr : (GetSession env w).1 = some err) :
    ∃ rest, (GetSession env (GetSession env w).2).2.trace =
      (GetSession env w).2.trace ++ .CreateSession :: rest := by
  obtain ⟨hclient, _, hwhy⟩ := GetSession_error env w hclock err herr
  apply GetSession_trace_of_need
  rw [hclient]
  rcases hwhy with ⟨htok, _⟩ | ⟨hexp, hreads⟩
  · exact Or.inl htok
  · right
    rw [hreads]
    exact lt_of_lt_of_le hexp (hmono (Nat.le_succ w.reads))

/-- C2 (as amended). Let the call make a single handshake: for a client without
token, the expiry check that follows a successful handshake reads the clock within
the 3 minutes the fresh session lasts. Then (1) when `GetSession` needs a handshake
and it fails at the transport, by a status other than 200 or by a body that does not
decode, `GetSession` returns an error and has sent that one request only; and (2)
whenever `GetSession` returns an error, the client (token and expiry included) is as
it was, `CreateSession` was entered exactly once, and, the client being still
unauthenticated, the next `GetSession` starts a fresh handshake (the clock not
running backwards). -/
theorem GetSession_failed_handshake (env : Env) (w : World)
    (hclock : w.client.AuthSessionToken = "" →
      env.Now (w.reads + 1) ≤ env.Now w.reads + Minute * 3)
    (hmono : Monotone env.Now) :
    (∀ req,
      (w.client.AuthSessionToken = "" ∨ w.client.SessionExpires < env.Now w.reads) →
      sessionRequest env w.client = .ok req →
      ((∃ e, env.Do (w.trace ++ [.CreateSession]) req = .error e) ∨
        ∃ res, env.Do (w.trace ++ [.CreateSession]) req = .ok res ∧
          (res.StatusCode ≠ StatusOK ∨
            ∃ e, (Decode env env.SessionBody res.Body
              (.pointer SessionBody.zero)).2 = some e)) →
      (∃ err, (GetSession env w).1 = some err) ∧
        (GetSession env w).2.trace = w.trace ++ [.CreateSession, .Do req]) ∧
    (∀ err, (GetSession env w).1 = some err →
      (GetSession env w).2.client = w.client ∧
      handshakes (GetSession env w).2.trace = handshakes w.trace + 1 ∧
      ∃ rest, (GetSession env (GetSession env w).2).2.trace =
        (GetSession env w).2.trace ++ .CreateSession :: rest) := by
  constructor
  · intro req hneed hreq hfail
    by_cases htok : w.client.AuthSessionToken = ""
    · obtain ⟨err, hcs⟩ := CreateSession_of_failure env w req hreq hfail
      have hget : GetSession env w =
          (some (.Wrap err "Failed to create new session with DEP server"),
            ⟨w.client, w.reads, w.trace ++ [.CreateSession, .Do req]⟩) := by
        rw [GetSession_empty env w htok, hcs]
      rw [hget]
      exact ⟨⟨_, rfl⟩, rfl⟩
    · have hexp : w.client.SessionExpires < env.Now w.reads := hneed.resolve_left htok
      obtain ⟨err, hcs⟩ :=
        CreateSession_of_failure env { w with reads := w.reads + 1 } req hreq hfail
      have hget : GetSession env w =
          (some (.Wrap err "Failed to create new auth session with DEP server"),
            ⟨w.client, w.reads + 1, w.trace ++ [.CreateSession, .Do req]⟩) := by
        rw [GetSession_held env w htok, if_pos hexp, hcs]
      rw [hget]
      exact ⟨⟨_, rfl⟩, rfl⟩
  · intro err herr
    obtain ⟨hclient, hcount, _⟩ := GetSession_error env w hclock err herr
    exact ⟨hclient, hcount, GetSession_after_error env w hclock hmono err herr⟩

/-- Witness for C2: a fresh client whose transport refuses the connection. -/
theorem GetSession_failed_handshake_witness :
    (Script.fresh.client.AuthSessionToken = "" →
        Script.unreachable.Now (Script.fresh.reads + 1) ≤
          Script.unreachable.Now Script.fresh.reads + Minute * 3) ∧
    Monotone Script.unreachable.Now ∧
    ((∃ err, (GetSession Script.unreachable Script.fresh).1 = some err) ∧
      (GetSession Script.unreachable Script.fresh).2.trace =
        Script.fresh.trace ++ [.CreateSession, .Do Script.handshake]) ∧
    (GetSession Script.unreachable Script.fresh).2.client = Script.fresh.client ∧
    handshakes (GetSession Script.unreachable Script.fresh).2.trace =
      handshakes Script.fresh.trace + 1 :=
  have h := GetSession_failed_handshake Script.unreachable Script.fresh (by decide)
    (fun _ _ hab => Nat.add_le_add_left hab 1000)
  have h2 := h.2 _ (by decide :
    (GetSession Script.unreachable Script.fresh).1 =
      some (.Wrap (.New "dial tcp: connection refused")
        "Failed to create new session with DEP server"))
  ⟨by decide, fun _ _ hab => Nat.add_le_add_left hab 1000,
    h.1 Script.handshake (Or.inl rfl) (by decide) (Or.inl ⟨_, rfl⟩), h2.1, h2.2.1⟩

/-- Counterexample to C2 as stated: a fresh client gets a token from its first
handshake, the clock has moved on by more than three minutes at the expiry check,
and the refresh is answered 503. The handshake outcome is a failure and
`GetSession` returns an error, yet the token and the expiry were replaced and two
handshakes ran within the failing call. -/
theorem GetSession_refresh_failure_after_jump :
    ¬ ((GetSession Script.lapsing Script.fresh).1 ≠ none →
        (GetSession Script.lapsing Script.fresh).2.client.AuthSessionToken =
            Script.fresh.client.AuthSessionToken ∧
          (GetSession Script.lapsing Script.fresh).2.client.SessionExpires =
            Script.fresh.client.SessionExpires ∧
          handshakes (GetSession Script.lapsing Script.fresh).2.trace =
            handshakes Script.fresh.trace + 1) := by
  decide

theorem Limit_error_iff (n : Int) (o : DeviceRequestOpts) :
    (∃ err, (Limit n o).1 = some err) ↔ 1000 < n := by
  unfold Limit
  by_cases h : n > 1000
  · simp [h]
  · simp [h]

theorem Limit_error (n : Int) (o : DeviceRequestOpts) (h : 1000 < n) :
    Limit n o = (some limitError, o) := by
  unfold Limit
  rw [if_pos h]

/-- An option of the package fails with the limit error only. -/
theorem IsPackageOpt_error (o : DeviceRequestOpt) (h : IsPackageOpt o)
    (r r1 : DeviceRequestOpts) (err : Error) (herr : o r = (some err, r1)) :
    err = limitError := by
  rcases h with ⟨c, rfl⟩ | ⟨m, rfl⟩
  · simp [Cursor] at herr
  · unfold Limit at herr
    by_cases hm : m > 1000
    · rw [if_pos hm] at herr
      cases herr; rfl
    · rw [if_neg hm] at herr
      cases herr

/-- A list holding a limit above 1000 is rejected, whatever the other options. -/
theorem applyOpts_rejects (n : Int) (h : 1000 < n) (opts : List DeviceRequestOpt)
    (hmem : Limit n ∈ opts) (r : DeviceRequestOpts) :
    ∃ err, applyOpts opts r = .error err ∧
      ((∀ o ∈ opts, IsPackageOpt o) → err = limitError) := by
  induction opts generalizing r with
  | nil => cases hmem
  | cons o rest ih =>
    rcases ho : o r with ⟨_ | err, r1⟩
    · have hrest : Limit n ∈ rest := by
        rcases List.mem_cons.mp hmem with heq | hin
        · rw [← heq, Limit_error n r h] at ho
          cases ho
        · exact hin
      obtain ⟨err, herr, hpkg⟩ := ih hrest r1
      refine ⟨err, ?_, fun hall => hpkg (fun o1 ho1 => hall o1 (List.mem_cons_of_mem _ ho1))⟩
      simp only [applyOpts, ho]
      exact herr
    · refine ⟨err, ?_, fun hall =>
        IsPackageOpt_error o (hall o (List.mem_cons_self _ _)) r r1 err ho⟩
      simp only [applyOpts, ho]

/-- C4. Applying `Limit(n)` to a request state fails exactly when `n > 1000`; for
`0 <= n <= 1000` it succeeds, the state's `Limit` becomes `n` and its `Cursor` is
unchanged. With a `Limit(n)`, `n > 1000`, among the options, `GetAllDevices` and
`SyncDevices` return a nil result with an error and the world exactly as it was: no
request was built, the transport was not called, the session was not touched. When
the options are those of the package that error is the error of `Limit`. -/
theorem Limit_above_1000_rejected (n : Int) :
    (∀ o : DeviceRequestOpts, (∃ err, (Limit n o).1 = some err) ↔ 1000 < n) ∧
    (∀ o : DeviceRequestOpts, 0 ≤ n → n ≤ 1000 →
      (Limit n o).1 = none ∧ (Limit n o).2.Limit = n ∧ (Limit n o).2.Cursor = o.Cursor) ∧
    (∀ (env : Env) (w : World) (cursor : String) (opts : List DeviceRequestOpt),
      1000 < n → Limit n ∈ opts →
        (∃ err, GetAllDevices env w opts = ((none, some err), w) ∧
          ((∀ o ∈ opts, IsPackageOpt o) → err = limitError)) ∧
        (∃ err, SyncDevices env w cursor opts = ((none, some err), w) ∧
          ((∀ o ∈ opts, IsPackageOpt o) → err = limitError))) := by
  refine ⟨Limit_error_iff n, ?_, ?_⟩
  · intro o _ hle
    have hnot : ¬ (n > 1000) := not_lt.mpr hle
    simp [Limit, hnot]
  · intro env w cursor opts hn hmem
    constructor
    · obtain ⟨err, herr, hpkg⟩ := applyOpts_rejects n hn opts hmem ⟨"", 0⟩
      exact ⟨err, by simp only [GetAllDevices, herr], hpkg⟩
    · obtain ⟨err, herr, hpkg⟩ := applyOpts_rejects n hn opts hmem ⟨cursor, 0⟩
      exact ⟨err, by simp only [SyncDevices, herr], hpkg⟩

/-- Witness for C4: `Limit(2000)` after a cursor option, on a client that holds a
session. -/
theorem Limit_above_1000_rejected_witness :
    ((1000 : Int) < 2000 ∧ Limit 2000 ∈ [Cursor "c1", Limit 2000]) ∧
    (∃ err, GetAllDevices Script.unreachable (Script.holding 5000) [Cursor "c1", Limit 2000] =
        ((none, some err), Script.holding 5000) ∧
      ((∀ o ∈ [Cursor "c1", Limit 2000], IsPackageOpt o) → err = limitError)) ∧
    (∃ err, SyncDevices Script.unreachable (Script.holding 5000) "c0" [Cursor "c1", Limit 2000] =
        ((none, some err), Script.holding 5000) ∧
      ((∀ o ∈ [Cursor "c1", Limit 2000], IsPackageOpt o) → err = limitError)) :=
  ⟨⟨by decide, by simp⟩,
    (Limit_above_1000_rejected 2000).2.2 Script.unreachable (Script.holding 5000) "c0"
      [Cursor "c1", Limit 2000] (by decide) (by simp)⟩

/-! ## The dispatcher -/

/-- The method `do` once the session step succeeded and the transport answered. -/
theorem do_of_response {α : Type} (env : Env) (u : Unmarshaler α) (w w1 : World)
    (req : Request) (to_ : Target α) (res : Response)
    (hsession : GetSession env w = (none, w1))
    (hres : env.Do w1.trace (stamped req w1) = .ok res) :
    do_ env u w req to_ =
      if res.StatusCode ≠ StatusOK then
        ((some (serverError res), to_.get), w1.log (.Do (stamped req w1)))
      else
        ((errors.Wrap (Decode env u res.Body to_).2 "Failed to decode DEP response body",
          (Decode env u res.Body to_).1), w1.log (.Do (stamped req w1))) := by
  unfold do_
  rw [hsession]
  simp only [stamped] at hres ⊢
  rw [hres]

/-- A destination passed by value is never decoded into: `do` fails. -/
theorem do_value {α : Type} (env : Env) (u : Unmarshaler α) (w : World) (req : Request)
    (v : α) : ∃ err, (do_ env u w req (.value v)).1 = (some err, v) := by
  unfold do_
  rcases GetSession env w with ⟨_ | e, w1⟩
  · simp only []
    cases env.Do w1.trace (req.AddHeader "X-ADM-Auth-Session" w1.client.AuthSessionToken) with
    | error e => exact ⟨_, rfl⟩
    | ok res =>
      simp only []
      by_cases hst : res.StatusCode = StatusOK
      · simp only [hst, ne_eq, not_true_eq_false, if_false, Decode]
        cases env.readValue res.Body with
        | error e => exact ⟨_, rfl⟩
        | ok value => exact ⟨_, rfl⟩
      · simp only [hst, ne_eq, not_false_eq_true, if_true]
        exact ⟨_, rfl⟩
  · exact ⟨_, rfl⟩

/-- C5 (as amended). With the session step done and a response received, `do`
returns the server error exactly when the status is not 200 (so also for 201 to
299); for status 200 and a body that is one JSON value which unmarshals into the
destination, it returns no error and the destination holds the decoded value. -/
theorem do_status {α : Type} (env : Env) (u : Unmarshaler α) (w w1 : World)
    (req : Request) (to_ : Target α) (res : Response)
    (hsession : GetSession env w = (none, w1))
    (hres : env.Do w1.trace (stamped req w1) = .ok res) :
    ((do_ env u w req to_).1.1 = some (serverError res) ↔ res.StatusCode ≠ StatusOK) ∧
    (∀ v0 value v, res.StatusCode = StatusOK → to_ = .pointer v0 →
      env.readValue res.Body = .ok value → u.unmarshal value v0 = (v, none) →
      (do_ env u w req to_).1 = (none, v)) := by
  rw [do_of_response env u w w1 req to_ res hsession hres]
  constructor
  · by_cases hst : res.StatusCode = StatusOK
    · simp only [hst, ne_eq, not_true_eq_false, if_false, iff_false]
      cases (Decode env u res.Body to_).2 <;> simp [errors.Wrap, serverError]
    · simp [hst]
  · intro v0 value v hst hto hvalue hv
    subst hto
    simp [hst, Decode, hvalue, hv, errors.Wrap]

/-- Witness for C5: a page answered with status 200 to a client holding a session. -/
theorem do_status_witness :
    (GetSession (Script.replying 200 Script.page1JSON) (Script.holding 5000) =
        (none, { Script.holding 5000 with reads := 1 })) ∧
    (do_ (Script.replying 200 Script.page1JSON) (Script.replying 200 Script.page1JSON).DeviceResponse
        (Script.holding 5000) Script.listing (.pointer DeviceResponse.zero)).1 =
      (none, Script.page1) :=
  ⟨by decide,
    (do_status (Script.replying 200 Script.page1JSON)
      (Script.replying 200 Script.page1JSON).DeviceResponse (Script.holding 5000)
      { Script.holding 5000 with reads := 1 } Script.listing (.pointer DeviceResponse.zero)
      ⟨200, "200", Script.page1JSON⟩ (by decide) (by decide)).2
      DeviceResponse.zero Script.page1JSON Script.page1 (by decide) rfl (by decide) (by decide)⟩

/-- Counterexample to C5 as stated: status 201 lies in 200..299 and the body is a
well-formed page, yet `do` returns the server error and decodes nothing. -/
theorem do_rejects_201 :
    ¬ ((200 : Int) ≤ 201 ∧ (201 : Int) ≤ 299 →
        (do_ (Script.replying 201 Script.page1JSON)
          (Script.replying 201 Script.page1JSON).DeviceResponse (Script.holding 5000)
          Script.listing (.pointer DeviceResponse.zero)).1 = (none, Script.page1)) := by
  decide

/-- C6. For a response whose status is not a 2xx status, `do` returns an error whose
message contains the decimal status code and, after it, the body text as received,
and the destination is as it was passed in. -/
theorem do_server_error {α : Type} (env : Env) (u : Unmarshaler α) (w w1 : World)
    (req : Request) (to_ : Target α) (res : Response)
    (hsession : GetSession env w = (none, w1))
    (hres : env.Do w1.trace (stamped req w1) = .ok res)
    (hstatus : ¬ (200 ≤ res.StatusCode ∧ res.StatusCode ≤ 299)) :
    ∃ err, (do_ env u w req to_).1 = (some err, to_.get) ∧
      ∃ before between, err.Message = before ++ toString res.StatusCode ++ between ++ res.Body := by
  have hst : res.StatusCode ≠ StatusOK := by
    intro h
    apply hstatus
    rw [h]
    decide
  rw [do_of_response env u w w1 req to_ res hsession hres, if_pos hst]
  exact ⟨serverError res, rfl,
    "Unexpected response received from DEP server. Response=", " | DEP API Error: ", rfl⟩

/-- Witness for C6: status 401 with a JSON error body. -/
theorem do_server_error_witness :
    ¬ ((200 : Int) ≤ 401 ∧ (401 : Int) ≤ 299) ∧
    ∃ err,
      (do_ (Script.replying 401 Script.badSessionJSON)
        (Script.replying 401 Script.badSessionJSON).DeviceResponse (Script.holding 5000)
        Script.listing (.pointer DeviceResponse.zero)).1 = (some err, DeviceResponse.zero) ∧
      ∃ before between, err.Message = before ++ "401" ++ between ++ Script.badSessionJSON :=
  ⟨by decide,
    do_server_error (Script.replying 401 Script.badSessionJSON)
      (Script.replying 401 Script.badSessionJSON).DeviceResponse (Script.holding 5000)
      { Script.holding 5000 with reads := 1 } Script.listing (.pointer DeviceResponse.zero)
      ⟨401, "401", Script.badSessionJSON⟩ (by decide) (by decide) (by decide)⟩

/-! ## The account -/

/-- C8 (what the code does). `GetAccount` hands its destination to `do` by value, so
the JSON decoder can never store into it: whatever the server answers, `GetAccount`
returns an error, and the account it returns, when it returns one, is the zero
`Account`. -/
theorem GetAccount_never_succeeds (env : Env) (w : World) :
    (∃ err, (GetAccount env w).1.2 = some err) ∧
    ((GetAccount env w).1.1 = none ∨ (GetAccount env w).1.1 = some Account.zero) := by
  unfold GetAccount
  rcases CreateRequest env w MethodGet "account" none with ⟨e | req, w1⟩
  · exact ⟨⟨_, rfl⟩, Or.inl rfl⟩
  · simp only []
    obtain ⟨err, herr⟩ := do_value env env.Account w1 req Account.zero
    rcases hdo : do_ env env.Account w1 req (.value Account.zero) with ⟨⟨e, acct⟩, w2⟩
    rw [hdo] at herr
    cases herr
    exact ⟨⟨_, rfl⟩, Or.inr rfl⟩

/-- The run behind C8: a client holding a session asks for the account and the
server answers 200 with a well-formed account object. -/
theorem GetAccount_on_well_formed_answer :
    (GetAccount (Script.replying 200 Script.accountJSON) (Script.holding 5000)).1 =
      (some Account.zero,
        some (.Wrap (.Wrap (.New "json: Unmarshal(non-pointer dep.Account)")
          "Failed to decode DEP response body") "Get account request failed")) := by
  decide

/-! ## Device paging -/

/-- A request that `CreateRequest` built carries the encoding of its body. -/
theorem CreateRequest_ok (env : Env) (w w1 : World) (method urlString : String)
    (body : Payload) (req : Request)
    (h : CreateRequest env w method urlString (some body) = (.ok req, w1)) :
    w1 = w.log (.CreateRequest method urlString) ∧ env.Encode body = .ok req.Body := by
  unfold CreateRequest at h
  simp only [] at h
  cases hp : env.Parse urlString with
  | error e => rw [hp] at h; cases h
  | ok path =>
    rw [hp] at h
    simp only [] at h
    cases he : env.Encode body with
    | error e => rw [he] at h; cases h
    | ok buffer =>
      rw [he] at h
      simp only [] at h
      cases hn : env.NewRequest method (env.ResolveReference (w.log (.CreateRequest method urlString)).client.BaseUrl path) with
      | some e => rw [hn] at h; cases h
      | none =>
        rw [hn] at h
        cases h
        exact ⟨rfl, rfl⟩

theorem applyOpts_append (pre post : List DeviceRequestOpt) (r r2 : DeviceRequestOpts)
    (h : applyOpts (pre ++ post) r = .ok r2) :
    ∃ r1, applyOpts pre r = .ok r1 ∧ applyOpts post r1 = .ok r2 := by
  induction pre generalizing r with
  | nil => exact ⟨r, rfl, h⟩
  | cons o rest ih =>
    simp only [List.cons_append, applyOpts] at h ⊢
    rcases ho : o r with ⟨_ | err, r1⟩
    · rw [ho] at h
      exact ih r1 h
    · rw [ho] at h
      cases h

/-- Limit options leave the cursor of the request state alone. -/
theorem applyOpts_limits (opts : List DeviceRequestOpt) (r r1 : DeviceRequestOpts)
    (hall : ∀ o ∈ opts, ∃ n, o = Limit n) (h : applyOpts opts r = .ok r1) :
    r1.Cursor = r.Cursor := by
  induction opts generalizing r with
  | nil => cases h; rfl
  | cons o rest ih =>
    obtain ⟨n, rfl⟩ := hall o (List.mem_cons_self _ _)
    simp only [applyOpts, Limit] at h
    by_cases hn : n > 1000
    · rw [if_pos hn] at h
      cases h
    · rw [if_neg hn] at h
      simp only [] at h
      exact ih ⟨r.Cursor, n⟩ (fun o ho => hall o (List.mem_cons_of_mem _ ho)) h

/-- C7 (as amended). For an accepted option list, a request that builds, a session
step that succeeds and a response with status 200 whose body decodes to a page, one
call of `SyncDevices` returns that page (devices, cursor and `MoreToFollow` as
decoded, also when there are no devices and more is to follow) with no error, after
adding to the trace the `CreateRequest`, what the session step did, and one business
request. The body of that request encodes the request state the options left: its
cursor is the given cursor when the options are `Limit` options, and the cursor of
the last `Cursor` option when one is followed by `Limit` options only. -/
theorem SyncDevices_one_page (env : Env) (w w1 w2 : World) (cursor : String)
    (opts : List DeviceRequestOpt) (request : DeviceRequestOpts) (req : Request)
    (res : Response) (value : String) (page : DeviceResponse)
    (hopts : applyOpts opts ⟨cursor, 0⟩ = .ok request)
    (hbuild : CreateRequest env w MethodPost SyncDevicesPath
      (some (.DeviceRequestOpts request)) = (.ok req, w1))
    (hsession : GetSession env w1 = (none, w2))
    (hres : env.Do w2.trace (stamped req w2) = .ok res)
    (hstatus : res.StatusCode = StatusOK)
    (hvalue : env.readValue res.Body = .ok value)
    (hpage : env.DeviceResponse.unmarshal value DeviceResponse.zero = (page, none)) :
    SyncDevices env w cursor opts = ((some page, none), w2.log (.Do (stamped req w2))) ∧
    w1 = w.log (.CreateRequest MethodPost SyncDevicesPath) ∧
    env.Encode (.DeviceRequestOpts request) = .ok req.Body ∧
    ((∀ o ∈ opts, ∃ n, o = Limit n) → request.Cursor = cursor) ∧
    (∀ c before after, opts = before ++ Cursor c :: after →
      (∀ o ∈ after, ∃ n, o = Limit n) → request.Cursor = c) := by
  obtain ⟨hw1, henc⟩ := CreateRequest_ok env w w1 _ _ _ req hbuild
  refine ⟨?_, hw1, henc, fun hall => applyOpts_limits opts _ _ hall hopts, ?_⟩
  · unfold SyncDevices
    rw [hopts]
    simp only []
    rw [hbuild]
    simp only []
    rw [do_of_response env env.DeviceResponse w1 w2 req _ res hsession hres]
    simp [hstatus, Decode, hvalue, hpage, errors.Wrap]
  · intro c before after hsplit hall
    subst hsplit
    obtain ⟨r1, _, h2⟩ := applyOpts_append before (Cursor c :: after) _ _ hopts
    simp only [applyOpts, Cursor] at h2
    exact applyOpts_limits after _ _ hall h2

/-- Witness for C7: the first page of the scripted two-page server, an empty page
with more to follow. -/
theorem SyncDevices_one_page_witness :
    applyOpts [] ⟨"", 0⟩ = .ok ⟨"", 0⟩ ∧
    SyncDevices Script.paging (Script.holding 5000) "" [] =
      ((some Script.page1, none),
        ⟨(Script.holding 5000).client, 1,
          [.CreateRequest MethodPost SyncDevicesPath,
           .Do (stamped (Script.syncing ⟨"", 0⟩) (Script.holding 5000))]⟩) :=
  ⟨rfl,
    (SyncDevices_one_page Script.paging (Script.holding 5000)
      ((Script.holding 5000).log (.CreateRequest MethodPost SyncDevicesPath))
      ⟨(Script.holding 5000).client, 1, [.CreateRequest MethodPost SyncDevicesPath]⟩
      "" [] ⟨"", 0⟩ (Script.syncing ⟨"", 0⟩) ⟨200, "200", Script.page1JSON⟩ Script.page1JSON
      Script.page1 rfl (by decide) (by decide) (by decide) (by decide) (by decide)
      (by decide)).1⟩

/-- The scripted two-page run: the first call returns the empty page `c1` with more
to follow, the second call, fed `c1`, returns page `c2` with nothing to follow, and
the two calls sent two business requests. -/
theorem SyncDevices_two_pages :
    (SyncDevices Script.paging (Script.holding 5000) "" []).1 = (some Script.page1, none) ∧
    (SyncDevices Script.paging (SyncDevices Script.paging (Script.holding 5000) "" []).2
      "c1" []).1 = (some Script.page2, none) ∧
    (SyncDevices Script.paging (SyncDevices Script.paging (Script.holding 5000) "" []).2
      "c1" []).2.trace =
      [.CreateRequest MethodPost SyncDevicesPath,
       .Do (stamped (Script.syncing ⟨"", 0⟩) (Script.holding 5000)),
       .CreateRequest MethodPost SyncDevicesPath,
       .Do (stamped (Script.syncing ⟨"c1", 0⟩) (Script.holding 5000))] := by
  decide

/-- Counterexample to C7 as stated: `SyncDevices("c1", Cursor("zzz"))` is accepted
and answered, and the one business request it sends carries the cursor `zzz` of the
option, not the given cursor `c1`. -/
theorem SyncDevices_cursor_option_wins :
    ¬ ((SyncDevices (Script.replying 200 Script.page1JSON) (Script.holding 5000) "c1"
          [Cursor "zzz"]).1 = (some Script.page1, none) →
        (SyncDevices (Script.replying 200 Script.page1JSON) (Script.holding 5000) "c1"
          [Cursor "zzz"]).2.trace =
          [.CreateRequest MethodPost SyncDevicesPath,
           .Do (stamped (Script.syncing ⟨"c1", 0⟩) (Script.holding 5000))]) := by
  decide

/-! ## Results alongside errors -/

/-- The method `do` when the session step fails. -/
theorem do_session_error {α : Type} (env : Env) (u : Unmarshaler α) (w w1 : World)
    (req : Request) (to_ : Target α) (e : Error)
    (hsession : GetSession env w = (some e, w1)) :
    (do_ env u w req to_).1 =
      (some (.Wrap e ("Failed to get session for request to " ++ w1.client.BaseUrl)),
        to_.get) := by
  unfold do_
  rw [hsession]
  rfl

/-- The method `do` when the transport fails. -/
theorem do_transport_error {α : Type} (env : Env) (u : Unmarshaler α) (w w1 : World)
    (req : Request) (to_ : Target α) (e : Error)
    (hsession : GetSession env w = (none, w1))
    (hres : env.Do w1.trace (stamped req w1) = .error e) :
    (do_ env u w req to_).1 =
      (some (.Wrap e "Failed to perform DEP request"), to_.get) := by
  unfold do_
  rw [hsession]
  simp only [stamped] at hres ⊢
  rw [hres]
  rfl

theorem RemoveProfile_not_built (env : Env) (w : World) (devices : List String) :
    ∀ e w1, CreateRequest env w MethodDelete RemoveProfilePath
        (some (.Devices devices)) = (.error e, w1) →
      NilWithError (RemoveProfile env w devices).1 := by
  intro e w1 h
  unfold RemoveProfile
  rw [h]
  exact ⟨rfl, _, rfl⟩

theorem RemoveProfile_eq (env : Env) (w w1 : World) (devices : List String)
    (req : Request)
    (h : CreateRequest env w MethodDelete RemoveProfilePath
      (some (.Devices devices)) = (.ok req, w1)) :
    (RemoveProfile env w devices).1 =
      ((do_ env env.RemoveProfileBody w1 req (.pointer RemoveProfileBody.zero)).1.2.Devices,
        errors.Wrap
          (do_ env env.RemoveProfileBody w1 req (.pointer RemoveProfileBody.zero)).1.1
          "Error running RemoveProfile request") := by
  unfold RemoveProfile
  rw [h]

theorem RemoveProfile_built (env : Env) (w : World) (devices : List String) :
    ∀ req w1, CreateRequest env w MethodDelete RemoveProfilePath
        (some (.Devices devices)) = (.ok req, w1) →
      (∀ e w2, GetSession env w1 = (some e, w2) →
        NilWithError (RemoveProfile env w devices).1) ∧
      (∀ w2, GetSession env w1 = (none, w2) →
        (∀ e, env.Do w2.trace (stamped req w2) = .error e →
          NilWithError (RemoveProfile env w devices).1) ∧
        (∀ res, env.Do w2.trace (stamped req w2) = .ok res →
          (res.StatusCode ≠ StatusOK → NilWithError (RemoveProfile env w devices).1) ∧
          (res.StatusCode = StatusOK →
            (∀ e, env.readValue res.Body = .error e →
              NilWithError (RemoveProfile env w devices).1) ∧
            (∀ value, env.readValue res.Body = .ok value →
              (RemoveProfile env w devices).1 =
                ((env.RemoveProfileBody.unmarshal value RemoveProfileBody.zero).1.Devices,
                  errors.Wrap
                    (errors.Wrap
                      (env.RemoveProfileBody.unmarshal value RemoveProfileBody.zero).2
                      "Failed to decode DEP response body")
                    "Error running RemoveProfile request"))))) := by
  intro req w1 h
  rw [RemoveProfile_eq env w w1 devices req h]
  refine ⟨fun e w2 hs => ?_, fun w2 hs => ⟨fun e hdo => ?_, fun res hdo => ⟨fun hst => ?_,
    fun hst => ⟨fun e hread => ?_, fun value hread => ?_⟩⟩⟩⟩
  · rw [do_session_error env _ w1 w2 req _ e hs]
    exact ⟨rfl, _, rfl⟩
  · rw [do_transport_error env _ w1 w2 req _ e hs hdo]
    exact ⟨rfl, _, rfl⟩
  · rw [do_of_response env _ w1 w2 req _ res hs hdo, if_pos hst]
    exact ⟨rfl, _, rfl⟩
  · rw [do_of_response env _ w1 w2 req _ res hs hdo]
    simp only [hst, ne_eq, not_true_eq_false, if_false, Decode, hread]
    exact ⟨rfl, _, rfl⟩
  · rw [do_of_response env _ w1 w2 req _ res hs hdo]
    simp only [hst, ne_eq, not_true_eq_false, if_false, Decode, hread]

/-- C9 (as amended). For each of the nine business operations: when an option is
rejected or `CreateRequest` fails, the operation returns a nil result and an error.
Once the request was built, the eight operations that return a pointer return the
address of their destination, never nil, whether `do` failed or not; so their result
is nil exactly when the request was not built. `RemoveProfile` returns a nil map
with the error when the request is not built, the session step fails, the transport
fails, the status is not 200 or the body is not one JSON value; once the body was
read it returns the `Devices` map that unmarshalling left, with its error if any. -/
theorem result_nil_iff_not_built (env : Env) (w : World) :
    (((GetAccount env w).1.1 = none ↔
        ∃ e, (CreateRequest env w MethodGet "account" none).1 = .error e) ∧
      ((GetAccount env w).1.1 = none → ∃ err, (GetAccount env w).1.2 = some err)) ∧
    (∀ opts, ((GetAllDevices env w opts).1.1 = none ↔
          (∃ e, applyOpts opts ⟨"", 0⟩ = .error e) ∨
            ∃ request e, applyOpts opts ⟨"", 0⟩ = .ok request ∧
              (CreateRequest env w MethodPost GetAllDevicesPath
                (some (.DeviceRequestOpts request))).1 = .error e) ∧
      ((GetAllDevices env w opts).1.1 = none →
        ∃ err, (GetAllDevices env w opts).1.2 = some err)) ∧
    (∀ cursor opts, ((SyncDevices env w cursor opts).1.1 = none ↔
          (∃ e, applyOpts opts ⟨cursor, 0⟩ = .error e) ∨
            ∃ request e, applyOpts opts ⟨cursor, 0⟩ = .ok request ∧
              (CreateRequest env w MethodPost SyncDevicesPath
                (some (.DeviceRequestOpts request))).1 = .error e) ∧
      ((SyncDevices env w cursor opts).1.1 = none →
        ∃ err, (SyncDevices env w cursor opts).1.2 = some err)) ∧
    (∀ serials, ((GetDevices env w serials).1.1 = none ↔
          ∃ e, (CreateRequest env w MethodPost GetDevicesPath
            (some (.Devices serials))).1 = .error e) ∧
      ((GetDevices env w serials).1.1 = none →
        ∃ err, (GetDevices env w serials).1.2 = some err)) ∧
    (∀ opts, ((LockDevice env w opts).1.1 = none ↔
          ∃ e, (CreateRequest env w MethodPost ActivationLockPath
            (some (.ActivationLockRequest opts))).1 = .error e) ∧
      ((LockDevice env w opts).1.1 = none → ∃ err, (LockDevice env w opts).1.2 = some err)) ∧
    (∀ uuid, ((GetProfile env w uuid).1.1 = none ↔
          ∃ e, (CreateRequest env w MethodGet GetProfilePath none).1 = .error e) ∧
      ((GetProfile env w uuid).1.1 = none → ∃ err, (GetProfile env w uuid).1.2 = some err)) ∧
    (∀ opts, ((CreateProfile env w opts).1.1 = none ↔
          ∃ e, (CreateRequest env w MethodPost CreateProfilePath
            (some (.Profiles opts))).1 = .error e) ∧
      ((CreateProfile env w opts).1.1 = none →
        ∃ err, (CreateProfile env w opts).1.2 = some err)) ∧
    (∀ uuid devices, ((AssignProfile env w uuid devices).1.1 = none ↔
          ∃ e, (CreateRequest env w MethodPost AssignProfilePath
            (some (.Devices devices))).1 = .error e) ∧
      ((AssignProfile env w uuid devices).1.1 = none →
        ∃ err, (AssignProfile env w uuid devices).1.2 = some err)) ∧
    (∀ devices,
      (∀ e w1, CreateRequest env w MethodDelete RemoveProfilePath
          (some (.Devices devices)) = (.error e, w1) →
        NilWithError (RemoveProfile env w devices).1) ∧
      (∀ req w1, CreateRequest env w MethodDelete RemoveProfilePath
          (some (.Devices devices)) = (.ok req, w1) →
        (∀ e w2, GetSession env w1 = (some e, w2) →
          NilWithError (RemoveProfile env w devices).1) ∧
        (∀ w2, GetSession env w1 = (none, w2) →
          (∀ e, env.Do w2.trace (stamped req w2) = .error e →
            NilWithError (RemoveProfile env w devices).1) ∧
          (∀ res, env.Do w2.trace (stamped req w2) = .ok res →
            (res.StatusCode ≠ StatusOK → NilWithError (RemoveProfile env w devices).1) ∧
            (res.StatusCode = StatusOK →
              (∀ e, env.readValue res.Body = .error e →
                NilWithError (RemoveProfile env w devices).1) ∧
              (∀ value, env.readValue res.Body = .ok value →
                (RemoveProfile env w devices).1 =
                  ((env.RemoveProfileBody.unmarshal value RemoveProfileBody.zero).1.Devices,
                    errors.Wrap
                      (errors.Wrap
                        (env.RemoveProfileBody.unmarshal value RemoveProfileBody.zero).2
                        "Failed to decode DEP response body")
                      "Error running RemoveProfile request"))))))) := by
  refine ⟨?_, ?_, ?_, ?_, ?_, ?_, ?_, ?_, ?_⟩
  · unfold GetAccount
    rcases CreateRequest env w MethodGet "account" none with ⟨e | req, w1⟩ <;>
      simp [errors.Wrap]
  · intro opts
    unfold GetAllDevices
    rcases applyOpts opts ⟨"", 0⟩ with e | request
    · simp
    · simp only []
      rcases hcr : CreateRequest env w MethodPost GetAllDevicesPath
        (some (.DeviceRequestOpts request)) with ⟨e | req, w1⟩ <;> simp [errors.Wrap, hcr]
  · intro cursor opts
    unfold SyncDevices
    rcases applyOpts opts ⟨cursor, 0⟩ with e | request
    · simp
    · simp only []
      rcases hcr : CreateRequest env w MethodPost SyncDevicesPath
        (some (.DeviceRequestOpts request)) with ⟨e | req, w1⟩ <;> simp [errors.Wrap, hcr]
  · intro serials
    unfold GetDevices
    rcases CreateRequest env w MethodPost GetDevicesPath (some (.Devices serials)) with
      ⟨e | req, w1⟩ <;> simp [errors.Wrap]
  · intro opts
    unfold LockDevice
    rcases CreateRequest env w MethodPost ActivationLockPath
      (some (.ActivationLockRequest opts)) with ⟨e | req, w1⟩ <;> simp [errors.Wrap]
  · intro uuid
    unfold GetProfile
    rcases CreateRequest env w MethodGet GetProfilePath none with ⟨e | req, w1⟩ <;>
      simp [errors.Wrap]
  · intro opts
    unfold CreateProfile
    rcases CreateRequest env w MethodPost CreateProfilePath (some (.Profiles opts)) with
      ⟨e | req, w1⟩ <;> simp [errors.Wrap]
  · intro uuid devices
    unfold AssignProfile
    rcases CreateRequest env w MethodPost AssignProfilePath (some (.Devices devices)) with
      ⟨e | req, w1⟩ <;> simp [errors.Wrap]
  · intro devices
    exact ⟨RemoveProfile_not_built env w devices, RemoveProfile_built env w devices⟩

/-- Witness for C9: `GetAllDevices` with a rejected option returns nil and, as
proved above, an error. -/
theorem result_nil_iff_not_built_witness :
    (GetAllDevices Script.unreachable (Script.holding 5000) [Limit 2000]).1.1 = none ∧
    ∃ err, (GetAllDevices Script.unreachable (Script.holding 5000) [Limit 2000]).1.2 = some err :=
  ⟨by decide,
    ((result_nil_iff_not_built Script.unreachable (Script.holding 5000)).2.1 [Limit 2000]).2
      (by decide)⟩

/-- Counterexample to C9 as stated: with the server out of reach, `GetAllDevices`
returns an error together with a non-nil result, the address of a zero
`DeviceResponse`. -/
theorem GetAllDevices_result_with_error :
    ¬ ((GetAllDevices Script.unreachable (Script.holding 5000) []).1.2 ≠ none →
        (GetAllDevices Script.unreachable (Script.holding 5000) []).1.1 = none) := by
  decide

/-! ## Concurrent callers -/

/-- Callers that find a token that is not expired reuse it: nobody sends anything. -/
theorem GetSessions_reuse (env : Env) (n : Nat) (v : World)
    (htok : v.client.AuthSessionToken ≠ "")
    (hfresh : ∀ k, v.reads ≤ k → k < v.reads + n → env.Now k ≤ v.client.SessionExpires) :
    GetSessions env n v = (List.replicate n none, { v with reads := v.reads + n }) := by
  induction n generalizing v with
  | zero => rfl
  | succ n ih =>
    have hnot : ¬ v.client.SessionExpires < env.Now v.reads :=
      not_lt.mpr (hfresh v.reads (le_refl _) (by omega))
    have hget : GetSession env v = (none, { v with reads := v.reads + 1 }) := by
      rw [GetSession_held env v htok, if_neg hnot]
    have hrest := ih { v with reads := v.reads + 1 } htok
      (fun k h1 h2 => hfresh k (by simp only [] at h1; omega) (by simp only [] at h2; omega))
    simp only [GetSessions, hget, hrest, List.replicate_succ, Nat.add_assoc,
      Nat.add_comm 1 n]

theorem handshakes_extend (tr rest : List Event) :
    handshakes tr + 1 ≤ handshakes (tr ++ .CreateSession :: rest) := by
  simp [handshakes, List.count_append, List.count_cons]

/-- C10 (as amended). Callers of `GetSession` that run concurrently while the
session is absent or expired are served one after another, `SessionMutex` being held
for the whole of each call. Let the first call make a single handshake (as in C1).
If that handshake succeeds with a token and the `n` other callers check the clock
before the fresh session expires, all `n + 1` callers are returned nil and exactly
one handshake was made. If the first call fails, its caller gets the error, the
client is left as it was, and the second caller makes a handshake of its own, so two
callers make at least two handshakes. -/
theorem GetSessions_one_handshake (env : Env) (w : World) (n : Nat)
    (hneed : w.client.AuthSessionToken = "" ∨ w.client.SessionExpires < env.Now w.reads)
    (hclock : w.client.AuthSessionToken = "" →
      env.Now (w.reads + 1) ≤ env.Now w.reads + Minute * 3) :
    ((GetSession env w).1 = none →
      (GetSession env w).2.client.AuthSessionToken ≠ "" →
      (∀ k, (GetSession env w).2.reads ≤ k → k < (GetSession env w).2.reads + n →
        env.Now k ≤ (GetSession env w).2.client.SessionExpires) →
      (GetSessions env (n + 1) w).1 = List.replicate (n + 1) none ∧
        handshakes (GetSessions env (n + 1) w).2.trace = handshakes w.trace + 1) ∧
    (∀ err, (GetSession env w).1 = some err → Monotone env.Now →
      (GetSessions env 2 w).1.head? = some (some err) ∧
        (GetSession env w).2.client = w.client ∧
        handshakes w.trace + 2 ≤ handshakes (GetSessions env 2 w).2.trace) := by
  constructor
  · intro hok htok hfresh
    have hrest := GetSessions_reuse env n (GetSession env w).2 htok hfresh
    have hcount := GetSession_count env w hclock
    rw [if_pos hneed] at hcount
    simp only [GetSessions, hrest, hok, List.replicate_succ]
    exact ⟨trivial, hcount⟩
  · intro err herr hmono
    obtain ⟨hclient, hcount, _⟩ := GetSession_error env w hclock err herr
    obtain ⟨rest, hnext⟩ := GetSession_after_error env w hclock hmono err herr
    refine ⟨?_, hclient, ?_⟩
    · simp only [GetSessions, herr, List.head?_cons]
    · have hext := handshakes_extend (GetSession env w).2.trace rest
      simp only [GetSessions]
      rw [hnext]
      omega

/-- Witness for C10: three callers on a fresh client whose handshake is answered
with a token: one handshake, nil for all three. -/
theorem GetSessions_one_handshake_witness :
    (Script.fresh.client.AuthSessionToken = "" ∨
        Script.fresh.client.SessionExpires < Script.answering.Now Script.fresh.reads) ∧
    (GetSessions Script.answering (2 + 1) Script.fresh).1 = List.replicate (2 + 1) none ∧
    handshakes (GetSessions Script.answering (2 + 1) Script.fresh).2.trace =
      handshakes Script.fresh.trace + 1 :=
  ⟨Or.inl rfl,
    (GetSessions_one_handshake Script.answering Script.fresh 2 (Or.inl rfl) (by decide)).1
      (by decide) (by decide)
      (fun k h1 h2 => by
        have h3 : (GetSession Script.answering Script.fresh).2.reads = 2 := by decide
        have h4 : (GetSession Script.answering Script.fresh).2.client.SessionExpires =
            1000 + Minute * 3 := by decide
        rw [h3] at h1 h2
        rw [h4]
        show 1000 + k ≤ 1000 + Minute * 3
        simp only [Minute]
        omega)⟩

/-- Counterexample to C10 as stated: two callers on a fresh client, the server
refusing the first connection and answering the second. The first caller gets an
error and the second nil, and two handshakes were made, not one. -/
theorem GetSessions_two_handshakes_after_failure :
    ¬ (handshakes (GetSessions Script.flaky 2 Script.fresh).2.trace =
        handshakes Script.fresh.trace + 1) ∧
    ¬ (∀ a ∈ (GetSessions Script.flaky 2 Script.fresh).1,
        ∀ b ∈ (GetSessions Script.flaky 2 Script.fresh).1, a = b) := by
  decide

end dep
